import Mathlib

/-
Verification of the snake-game core in snek.py: the Snek movement model
(advance / eat / kill / footprint), the coordinate transform, apple placement
(gen_position) and one iteration of the game loop, shallowly embedded in Lean.
Python integers are unbounded, so coordinates are pairs of Int; the deque tail
is a list whose head is the deque's left (front) end; KeyError / IndexError
branches are modelled with Option.
-/

namespace SnekGame

/-- Direction enum from snek.py; DEFAULT is the value DIRECTION_MAP assigns to
curses.ERR, i.e. "no key pressed this tick" (the spec calls it NONE). -/
inductive Direction where
| UP
| DOWN
| LEFT
| RIGHT
| DEFAULT
deriving DecidableEq

/-- opposite(direction) = OPPOSITE.get(direction): the OPPOSITE dict has no
entry for DEFAULT, so the Python function returns None there, modelled by
Option. -/
def opposite : Direction → Option Direction
| Direction.UP => some Direction.DOWN
| Direction.DOWN => some Direction.UP
| Direction.LEFT => some Direction.RIGHT
| Direction.RIGHT => some Direction.LEFT
| Direction.DEFAULT => none

/-- A (y, x) coordinate pair. -/
abbrev Coord := Int × Int

/-- State of the Snek class: direction, head, tail (deque; list head = deque
front, the cell most recently vacated by the head) and the _alive flag. -/
structure Snek where
  direction : Direction
  head : Coord
  tail : List Coord
  alive : Bool
deriving DecidableEq

/-- self._shorthand: unit delta (dy, dx) per direction; the dict has no entry
for DEFAULT, so indexing with DEFAULT raises KeyError, modelled by none. -/
def shorthand : Direction → Option Coord
| Direction.UP => some (1, 0)
| Direction.DOWN => some (-1, 0)
| Direction.LEFT => some (0, -1)
| Direction.RIGHT => some (0, 1)
| Direction.DEFAULT => none

/-- Snek._move(direction, apple): look up the delta (KeyError = none for
DEFAULT), push the old head on the front of the tail, step the head by the
delta, pop the back of the tail unless the new head equals the apple, and set
_alive to False when the new head occurs in the resulting tail. -/
def Snek._move (s : Snek) (direction : Direction) (apple : Coord) : Option Snek :=
  match shorthand direction with
  | none => none
  | some d =>
    let head1 : Coord := (s.head.1 + d.1, s.head.2 + d.2)
    let tail1 : List Coord := s.head :: s.tail
    let tail2 : List Coord := if head1 = apple then tail1 else tail1.dropLast
    let alive1 : Bool := if head1 ∈ tail2 then false else s.alive
    some ⟨s.direction, head1, tail2, alive1⟩

/-- The value self.direction holds after advance's guard: the input, unless the
input is the opposite of the current direction or is DEFAULT. -/
def effectiveDirection (s : Snek) (direction : Direction) : Direction :=
  if some direction ≠ opposite s.direction ∧ direction ≠ Direction.DEFAULT then
    direction
  else
    s.direction

/-- Snek.advance(direction, apple): `if direction is not opposite(self.direction)
and direction is not Direction.DEFAULT: self.direction = direction`, then
self._move(self.direction, apple). -/
def Snek.advance (s : Snek) (direction : Direction) (apple : Coord) : Option Snek :=
  Snek._move ⟨effectiveDirection s direction, s.head, s.tail, s.alive⟩
    (effectiveDirection s direction) apple

/-- Snek.eat(): the body is `pass`. -/
def Snek.eat (s : Snek) : Snek := s

/-- Snek.kill(): sets self._alive = False. -/
def Snek.kill (s : Snek) : Snek := ⟨s.direction, s.head, s.tail, false⟩

/-- Snek.footprint: [self.head] + list(self.tail). -/
def Snek.footprint (s : Snek) : List Coord := s.head :: s.tail

/-- _trans_pos(screen, pos): (y, x) ↦ (height - y, x) where height is the
screen height. -/
def _trans_pos (height : Int) (pos : Coord) : Coord := (height - pos.1, pos.2)

/-- The candidate set built by gen_position(screen, invalid):
{(y, x) for y in range(1, height-2) for x in range(1, width-2)} - invalid.
Python's range(1, n) is the integers 1 .. n-1, so the grid is
[1, height-3] × [1, width-3].  random.choice then picks uniformly from this
set (raising IndexError when it is empty), so the possible return values of
gen_position are exactly the members of this set. -/
def gen_position_possible (height width : Int) (invalid : Finset Coord) : Finset Coord :=
  (Finset.Icc 1 (height - 3) ×ˢ Finset.Icc 1 (width - 3)) \ invalid

/-- Follows the spec's words, for comparison with gen_position_possible: the
playable region [1, height-2] × [1, width-2] (all cells strictly inside the
border rows 0 and height-1 and border columns 0 and width-1). -/
def spec_playable (height width : Int) : Finset Coord :=
  Finset.Icc 1 (height - 2) ×ˢ Finset.Icc 1 (width - 2)

/-- Observable outcome of one iteration of the while-loop body in snek():
the snake and apple after the tick, whether the apple-consumption branch ran,
and whether the tick reached the draw_snek/draw_apple calls at the end of the
body (False when the wall-collision branch hit `continue`). -/
structure TickResult where
  snek : Snek
  apple : Coord
  ateApple : Bool
  rendered : Bool
deriving DecidableEq

/-- One iteration of the game-loop body in snek(): advance with the apple
converted to simulation space, wall check on the head converted back with
_trans_pos (kill and `continue` when x < 1 or x > width-2 or y < 1 or
y > height-2), else apple consumption and respawn when the transformed head
equals the apple (the uniformly random pick of random.choice is modelled by
the choice function `respawn` applied to the candidate set), else fall
through; the final draw calls run in every branch except the wall one. -/
def tick (height width : Int) (s : Snek) (apple : Coord) (input : Direction)
    (respawn : Finset Coord → Coord) : Option TickResult :=
  match s.advance input (_trans_pos height apple) with
  | none => none
  | some s1 =>
    let p := _trans_pos height s1.head
    if p.2 < 1 ∨ p.2 > width - 2 ∨ p.1 < 1 ∨ p.1 > height - 2 then
      some ⟨s1.kill, apple, false, false⟩
    else if p = apple then
      let occupied : Finset Coord := (s1.footprint.map (_trans_pos height)).toFinset
      some ⟨s1.eat, respawn (gen_position_possible height width occupied), true, true⟩
    else
      some ⟨s1, apple, false, true⟩

/-- The self-collision invariant: while _alive is True the head does not occur
in the tail. -/
def SnekInv (s : Snek) : Prop := s.alive = true → s.head ∉ s.tail

/-- Inversion principle for a successful advance: the resulting direction is
the guarded effective direction, the head moved by its shorthand delta, the
tail is the old head pushed on the front (with the back popped unless the new
head equals the apple), and _alive is cleared exactly when the new head occurs
in the resulting tail. -/
theorem advance_eq_some (s : Snek) (input : Direction) (apple : Coord) (s' : Snek)
    (h : s.advance input apple = some s') :
    ∃ d : Coord, shorthand (effectiveDirection s input) = some d ∧
      s'.direction = effectiveDirection s input ∧
      s'.head = (s.head.1 + d.1, s.head.2 + d.2) ∧
      s'.tail = (if s'.head = apple then s.head :: s.tail else (s.head :: s.tail).dropLast) ∧
      s'.alive = (if s'.head ∈ s'.tail then false else s.alive) := by
  unfold Snek.advance Snek._move at h
  cases hd : shorthand (effectiveDirection s input) with
  | none => rw [hd] at h; simp at h
  | some d =>
    rw [hd] at h
    simp only [Option.some.injEq] at h
    refine ⟨d, rfl, ?_, ?_, ?_, ?_⟩ <;> rw [← h]

/-- C1: advance(input, apple) updates the stored direction to the input exactly
when the input is not DEFAULT (the spec's NONE) and is not the opposite of the
current direction; otherwise the stored direction is unchanged.  The state s is
arbitrary, so the opposite-input case holds for every tail, empty or not. -/
theorem C1_direction_update (s : Snek) (input : Direction) (apple : Coord) (s' : Snek)
    (h : s.advance input apple = some s') :
    ((input ≠ Direction.DEFAULT ∧ some input ≠ opposite s.direction) → s'.direction = input) ∧
    ((input = Direction.DEFAULT ∨ some input = opposite s.direction) →
      s'.direction = s.direction) := by
  obtain ⟨d, hd, hdir, -, -, -⟩ := advance_eq_some s input apple s' h
  constructor
  · intro hg
    rw [hdir, effectiveDirection, if_pos ⟨hg.2, hg.1⟩]
  · intro hcase
    rw [hdir, effectiveDirection, if_neg]
    intro hg
    rcases hcase with h1 | h2
    · exact hg.2 h1
    · exact hg.1 h2

/-- Witness for C1 at a concrete input: state heading UP with tail [(4,5)],
input DOWN (the opposite), apple (0,0); advance returns the state with head
(6,5), tail [(5,5)] and direction still UP. -/
theorem C1_direction_update_witness :
    ((Direction.DOWN ≠ Direction.DEFAULT ∧
        some Direction.DOWN ≠ opposite (Snek.direction ⟨Direction.UP, (5,5), [(4,5)], true⟩)) →
      Snek.direction ⟨Direction.UP, (6,5), [(5,5)], true⟩ = Direction.DOWN) ∧
    ((Direction.DOWN = Direction.DEFAULT ∨
        some Direction.DOWN = opposite (Snek.direction ⟨Direction.UP, (5,5), [(4,5)], true⟩)) →
      Snek.direction ⟨Direction.UP, (6,5), [(5,5)], true⟩ =
        Snek.direction ⟨Direction.UP, (5,5), [(4,5)], true⟩) :=
  C1_direction_update ⟨Direction.UP, (5,5), [(4,5)], true⟩ Direction.DOWN (0,0)
    ⟨Direction.UP, (6,5), [(5,5)], true⟩ (by decide)

/-- C2 counterexample: the claim says the old head becomes the front element of
the tail after every advance, but advancing a snake with an EMPTY tail away
from the apple first pushes the old head (5,5) and then pops it again as the
back element, leaving the tail empty: its front is none, not some (5,5). -/
theorem C2_cex :
    Snek.advance ⟨Direction.UP, (5,5), [], true⟩ Direction.DEFAULT (0,0)
      = some ⟨Direction.UP, (6,5), [], true⟩ ∧
    (Snek.tail ⟨Direction.UP, (6,5), [], true⟩).head? ≠
      some (Snek.head ⟨Direction.UP, (5,5), [], true⟩) := by decide

/-- C2 (amended): after a successful advance the new head is the old head plus
the unit delta of the effective direction; when the new head differs from the
apple the tail is the old head pushed on the front with the back/oldest element
dropped, so its length is unchanged; when the new head equals the apple nothing
is dropped and the length grows by exactly one; and the old head is the front
element of the tail whenever the resulting tail is non-empty (from an empty
tail in the non-growth case, the pushed old head is itself the dropped back
element and the tail stays empty). -/
theorem C2_move_growth (s : Snek) (input : Direction) (apple : Coord) (s' : Snek)
    (h : s.advance input apple = some s') :
    ∃ d : Coord, shorthand s'.direction = some d ∧
      s'.head = (s.head.1 + d.1, s.head.2 + d.2) ∧
      (s'.tail ≠ [] → s'.tail.head? = some s.head) ∧
      (s'.head ≠ apple → s'.tail.length = s.tail.length ∧
        s'.tail = (s.head :: s.tail).dropLast) ∧
      (s'.head = apple → s'.tail.length = s.tail.length + 1 ∧
        s'.tail = s.head :: s.tail) := by
  obtain ⟨d, hd, hdir, hhead, htail, -⟩ := advance_eq_some s input apple s' h
  refine ⟨d, hdir ▸ hd, hhead, ?_, ?_, ?_⟩
  · intro hne
    rw [htail] at hne ⊢
    by_cases hap : s'.head = apple
    · simp [hap]
    · rw [if_neg hap] at hne ⊢
      revert hne
      cases s.tail with
      | nil => intro hne; simp at hne
      | cons a t => intro hne; simp [List.dropLast]
  · intro hne
    rw [htail, if_neg hne]
    refine ⟨?_, rfl⟩
    rw [List.length_dropLast, List.length_cons]
    omega
  · intro heq
    rw [htail, if_pos heq]
    exact ⟨by simp, rfl⟩

/-- Witness for C2 at a concrete input: snake at (5,5) heading UP with empty
tail, apple exactly at the cell (6,5) the head moves into — growth: the tail
becomes [(5,5)] with the old head at its front. -/
theorem C2_move_growth_witness :
    ∃ d : Coord,
      shorthand (Snek.direction ⟨Direction.UP, (6,5), [(5,5)], true⟩) = some d ∧
      Snek.head ⟨Direction.UP, (6,5), [(5,5)], true⟩ = (5 + d.1, 5 + d.2) ∧
      (Snek.tail ⟨Direction.UP, (6,5), [(5,5)], true⟩ ≠ [] →
        (Snek.tail ⟨Direction.UP, (6,5), [(5,5)], true⟩).head? = some (5,5)) ∧
      (Snek.head ⟨Direction.UP, (6,5), [(5,5)], true⟩ ≠ (6,5) →
        (Snek.tail ⟨Direction.UP, (6,5), [(5,5)], true⟩).length =
          List.length ([] : List Coord) ∧
        Snek.tail ⟨Direction.UP, (6,5), [(5,5)], true⟩ = [((5,5) : Coord)].dropLast) ∧
      (Snek.head ⟨Direction.UP, (6,5), [(5,5)], true⟩ = (6,5) →
        (Snek.tail ⟨Direction.UP, (6,5), [(5,5)], true⟩).length =
          List.length ([] : List Coord) + 1 ∧
        Snek.tail ⟨Direction.UP, (6,5), [(5,5)], true⟩ = [(5,5)]) :=
  C2_move_growth ⟨Direction.UP, (5,5), [], true⟩ Direction.DEFAULT (6,5)
    ⟨Direction.UP, (6,5), [(5,5)], true⟩ (by decide)

/-- C3: "alive implies head not in tail" is preserved by advance, kill and
eat; advance clears _alive exactly in the step whose new head lands in the
(post-pop) tail, i.e. alive' = alive && head' not in tail'; kill changes
nothing but _alive (so the invariant holds after it); eat is the identity; and
once _alive is False no operation sets it back to True, so death is terminal
and idempotent. -/
theorem C3_alive_invariant (s : Snek) (input : Direction) (apple : Coord) (s' : Snek)
    (h : s.advance input apple = some s') :
    (SnekInv s → SnekInv s') ∧
    s'.alive = (s.alive && !(decide (s'.head ∈ s'.tail))) ∧
    (s.alive = false → s'.alive = false) ∧
    (SnekInv s.kill ∧ s.kill.alive = false ∧ s.kill.head = s.head ∧
      s.kill.tail = s.tail ∧ s.kill.direction = s.direction) ∧
    s.eat = s ∧
    (s.alive = false → (s.eat).alive = false ∧ s.kill.alive = false) := by
  obtain ⟨d, -, -, -, -, halive⟩ := advance_eq_some s input apple s' h
  have hal : s'.alive = (s.alive && !(decide (s'.head ∈ s'.tail))) := by
    rw [halive]
    by_cases hm : s'.head ∈ s'.tail <;> simp [hm]
  refine ⟨?_, hal, ?_, ⟨?_, rfl, rfl, rfl, rfl⟩, rfl, fun hd0 => ⟨hd0, rfl⟩⟩
  · intro _ hs'
    rw [hal] at hs'
    simp only [Bool.and_eq_true, Bool.not_eq_true', decide_eq_false_iff_not] at hs'
    exact hs'.2
  · intro hdead
    rw [hal, hdead]
    rfl
  · intro hc
    simp [Snek.kill] at hc

/-- Witness for C3 at a concrete input: snake at (0,0) with tail [(1,0)] and
the apple placed on the tail cell (1,0) the head moves into — growth step in
which the new head lands in the tail, so _alive flips to False. -/
theorem C3_alive_invariant_witness :
    (SnekInv ⟨Direction.UP, (0,0), [(1,0)], true⟩ →
      SnekInv ⟨Direction.UP, (1,0), [(0,0),(1,0)], false⟩) ∧
    Snek.alive ⟨Direction.UP, (1,0), [(0,0),(1,0)], false⟩ =
      (Snek.alive ⟨Direction.UP, (0,0), [(1,0)], true⟩ &&
        !(decide (Snek.head ⟨Direction.UP, (1,0), [(0,0),(1,0)], false⟩ ∈
            Snek.tail ⟨Direction.UP, (1,0), [(0,0),(1,0)], false⟩))) ∧
    (Snek.alive ⟨Direction.UP, (0,0), [(1,0)], true⟩ = false →
      Snek.alive ⟨Direction.UP, (1,0), [(0,0),(1,0)], false⟩ = false) ∧
    (SnekInv (Snek.kill ⟨Direction.UP, (0,0), [(1,0)], true⟩) ∧
      (Snek.kill ⟨Direction.UP, (0,0), [(1,0)], true⟩).alive = false ∧
      (Snek.kill ⟨Direction.UP, (0,0), [(1,0)], true⟩).head = (0,0) ∧
      (Snek.kill ⟨Direction.UP, (0,0), [(1,0)], true⟩).tail = [(1,0)] ∧
      (Snek.kill ⟨Direction.UP, (0,0), [(1,0)], true⟩).direction = Direction.UP) ∧
    Snek.eat ⟨Direction.UP, (0,0), [(1,0)], true⟩ = ⟨Direction.UP, (0,0), [(1,0)], true⟩ ∧
    (Snek.alive ⟨Direction.UP, (0,0), [(1,0)], true⟩ = false →
      (Snek.eat ⟨Direction.UP, (0,0), [(1,0)], true⟩).alive = false ∧
      (Snek.kill ⟨Direction.UP, (0,0), [(1,0)], true⟩).alive = false) :=
  C3_alive_invariant ⟨Direction.UP, (0,0), [(1,0)], true⟩ Direction.DEFAULT (1,0)
    ⟨Direction.UP, (1,0), [(0,0),(1,0)], false⟩ (by decide)

/-- C4: every coordinate gen_position can return (a member of its candidate
set, from which random.choice picks) is outside the excluded set and inside
the playable region [1, height-2] × [1, width-2]. -/
theorem C4_gen_position_bounds (height width : Int) (invalid : Finset Coord) (c : Coord)
    (hc : c ∈ gen_position_possible height width invalid) :
    c ∉ invalid ∧ 1 ≤ c.1 ∧ c.1 ≤ height - 2 ∧ 1 ≤ c.2 ∧ c.2 ≤ width - 2 := by
  rw [gen_position_possible, Finset.mem_sdiff, Finset.mem_product,
    Finset.mem_Icc, Finset.mem_Icc] at hc
  exact ⟨hc.2, hc.1.1.1, by omega, hc.1.2.1, by omega⟩

/-- Witness for C4 at a concrete input: on a 5×5 screen with (2,2) excluded,
(1,1) is a possible result, is not excluded, and lies in [1,3] × [1,3]. -/
theorem C4_gen_position_bounds_witness :
    ((1,1) : Coord) ∉ ({(2,2)} : Finset Coord) ∧
    1 ≤ ((1,1) : Coord).1 ∧ ((1,1) : Coord).1 ≤ 5 - 2 ∧
    1 ≤ ((1,1) : Coord).2 ∧ ((1,1) : Coord).2 ≤ 5 - 2 :=
  C4_gen_position_bounds 5 5 {(2,2)} (1,1) (by decide)

/-- C5: the claim says every unexcluded cell of [1, height-2] × [1, width-2]
is a possible result of gen_position, but the comprehension uses
range(1, height-2), whose last element is height-3: on a 5×5 screen the
playable cell (3,3) = (height-2, width-2) is never produced even with nothing
excluded, although the game loop's wall check treats it as in bounds. -/
theorem C5_respawn_gap :
    ((3,3) : Coord) ∈ spec_playable 5 5 ∧
    ((3,3) : Coord) ∉ gen_position_possible 5 5 ∅ := by decide

/-- C8: when the excluded set covers the whole playable area
[1, height-2] × [1, width-2], gen_position's candidate set is empty, so
random.choice is applied to an empty list and the error branch (IndexError)
is reached instead of a coordinate being returned. -/
theorem C8_gen_position_empty (height width : Int) (invalid : Finset Coord)
    (hcov : ∀ c : Coord, c ∈ spec_playable height width → c ∈ invalid) :
    gen_position_possible height width invalid = ∅ := by
  rw [Finset.eq_empty_iff_forall_not_mem]
  intro c hc
  rw [gen_position_possible, Finset.mem_sdiff, Finset.mem_product,
    Finset.mem_Icc, Finset.mem_Icc] at hc
  refine hc.2 (hcov c ?_)
  rw [spec_playable, Finset.mem_product, Finset.mem_Icc, Finset.mem_Icc]
  constructor
  · exact ⟨hc.1.1.1, by omega⟩
  · exact ⟨hc.1.2.1, by omega⟩

/-- Witness for C8 at a concrete input: a 4×4 screen with the full playable
area excluded leaves no candidate cell. -/
theorem C8_gen_position_empty_witness :
    gen_position_possible 4 4 (spec_playable 4 4) = ∅ :=
  C8_gen_position_empty 4 4 (spec_playable 4 4) (fun _ hc => hc)

/-- C7: _trans_pos with a fixed height is an involution on integer coordinate
pairs. -/
theorem C7_trans_pos_involutive (height : Int) (pos : Coord) :
    _trans_pos height (_trans_pos height pos) = pos := by
  cases pos with
  | mk y x =>
    simp only [_trans_pos, Prod.mk.injEq]
    exact ⟨by omega, trivial⟩

/-- C10: eat() is observationally a no-op: it returns the state unchanged,
so direction, head, tail and _alive are all preserved. -/
theorem C10_eat_noop (s : Snek) :
    s.eat = s ∧ (s.eat).direction = s.direction ∧ (s.eat).head = s.head ∧
    (s.eat).tail = s.tail ∧ (s.eat).alive = s.alive :=
  ⟨rfl, rfl, rfl, rfl, rfl⟩

/-- C9: advance is not total: the _shorthand lookup has no entry for DEFAULT,
so advance raises KeyError (returns none here) exactly when the effective
direction after the guard is DEFAULT, which happens exactly when the current
direction is DEFAULT (as init can set it from an unmapped first keypress) and
the input is DEFAULT; it returns normally exactly when the effective direction
is one of UP, DOWN, LEFT, RIGHT. -/
theorem C9_advance_partiality (s : Snek) (input : Direction) (apple : Coord) :
    (s.advance input apple = none ↔ effectiveDirection s input = Direction.DEFAULT) ∧
    (effectiveDirection s input = Direction.DEFAULT ↔
      (s.direction = Direction.DEFAULT ∧ input = Direction.DEFAULT)) ∧
    ((s.advance input apple).isSome = true ↔
      (effectiveDirection s input = Direction.UP ∨
       effectiveDirection s input = Direction.DOWN ∨
       effectiveDirection s input = Direction.LEFT ∨
       effectiveDirection s input = Direction.RIGHT)) := by
  have h1 : s.advance input apple = none ↔
      effectiveDirection s input = Direction.DEFAULT := by
    unfold Snek.advance Snek._move
    cases he : effectiveDirection s input <;> simp [shorthand]
  have h2 : effectiveDirection s input = Direction.DEFAULT ↔
      (s.direction = Direction.DEFAULT ∧ input = Direction.DEFAULT) := by
    unfold effectiveDirection
    by_cases hg : (some input ≠ opposite s.direction ∧ input ≠ Direction.DEFAULT)
    · rw [if_pos hg]
      constructor
      · intro hc; exact absurd hc hg.2
      · intro hc; exact absurd hc.2 hg.2
    · rw [if_neg hg]
      constructor
      · intro hsd
        refine ⟨hsd, ?_⟩
        by_contra hin
        exact hg ⟨by simp [hsd, opposite], hin⟩
      · exact fun hc => hc.1
  have h3 : (s.advance input apple).isSome = true ↔
      effectiveDirection s input ≠ Direction.DEFAULT := by
    rw [Option.isSome_iff_ne_none]
    exact not_congr h1
  refine ⟨h1, h2, h3.trans ?_⟩
  cases he : effectiveDirection s input <;> simp

/-- C6: in a game-loop tick whose advance returns normally, the wall-collision
branch — snake killed, `continue` so no apple consumption and no snake/apple
draw this tick, after which the while condition ends the game — is taken
exactly when the new head converted with _trans_pos lies outside the playable
region [1, height-2] × [1, width-2], i.e. when x < 1 or x > width-2 or y < 1
or y > height-2. -/
theorem C6_wall_game_over (height width : Int) (s : Snek) (apple : Coord)
    (input : Direction) (respawn : Finset Coord → Coord) (s1 : Snek)
    (h : s.advance input (_trans_pos height apple) = some s1) :
    (tick height width s apple input respawn = some ⟨s1.kill, apple, false, false⟩ ↔
      _trans_pos height s1.head ∉ spec_playable height width) ∧
    (_trans_pos height s1.head ∉ spec_playable height width ↔
      ((_trans_pos height s1.head).2 < 1 ∨ (_trans_pos height s1.head).2 > width - 2 ∨
       (_trans_pos height s1.head).1 < 1 ∨ (_trans_pos height s1.head).1 > height - 2)) ∧
    (s1.kill).alive = false := by
  have hmem : _trans_pos height s1.head ∉ spec_playable height width ↔
      ((_trans_pos height s1.head).2 < 1 ∨ (_trans_pos height s1.head).2 > width - 2 ∨
       (_trans_pos height s1.head).1 < 1 ∨ (_trans_pos height s1.head).1 > height - 2) := by
    rw [spec_playable, Finset.mem_product, Finset.mem_Icc, Finset.mem_Icc]
    omega
  refine ⟨?_, hmem, rfl⟩
  unfold tick
  rw [h]
  dsimp only
  by_cases hw : ((_trans_pos height s1.head).2 < 1 ∨
      (_trans_pos height s1.head).2 > width - 2 ∨
      (_trans_pos height s1.head).1 < 1 ∨ (_trans_pos height s1.head).1 > height - 2)
  · rw [if_pos hw]
    exact iff_of_true rfl (hmem.mpr hw)
  · rw [if_neg hw]
    refine iff_of_false ?_ (fun hr => hw (hmem.mp hr))
    by_cases ha : _trans_pos height s1.head = apple
    · rw [if_pos ha]; simp
    · rw [if_neg ha]; simp

/-- Witness for C6 at a concrete input: 10×10 screen, snake at (9,5) heading
UP with empty tail and apple at (3,3); the advanced head (10,5) transforms to
(0,5), whose row 0 is outside the playable region, so the tick kills the snake
and skips the eat and draw steps. -/
theorem C6_wall_game_over_witness :
    (tick 10 10 ⟨Direction.UP, (9,5), [], true⟩ (3,3) Direction.DEFAULT
        (Function.const (Finset Coord) ((0,0) : Coord)) =
      some ⟨Snek.kill ⟨Direction.UP, (10,5), [], true⟩, (3,3), false, false⟩ ↔
      _trans_pos 10 (Snek.head ⟨Direction.UP, (10,5), [], true⟩) ∉ spec_playable 10 10) ∧
    (_trans_pos 10 (Snek.head ⟨Direction.UP, (10,5), [], true⟩) ∉ spec_playable 10 10 ↔
      ((_trans_pos 10 (Snek.head ⟨Direction.UP, (10,5), [], true⟩)).2 < 1 ∨
       (_trans_pos 10 (Snek.head ⟨Direction.UP, (10,5), [], true⟩)).2 > 10 - 2 ∨
       (_trans_pos 10 (Snek.head ⟨Direction.UP, (10,5), [], true⟩)).1 < 1 ∨
       (_trans_pos 10 (Snek.head ⟨Direction.UP, (10,5), [], true⟩)).1 > 10 - 2)) ∧
    (Snek.kill ⟨Direction.UP, (10,5), [], true⟩).alive = false :=
  C6_wall_game_over 10 10 ⟨Direction.UP, (9,5), [], true⟩ (3,3) Direction.DEFAULT
    (Function.const (Finset Coord) ((0,0) : Coord)) ⟨Direction.UP, (10,5), [], true⟩
    (by decide)

end SnekGame
